import Mathlib

/-!
Verification of the Risk Metrics and Time-Series Alignment Engine of the
`streamliy` repository (sources `task3/risk.py` and `task4/imrisk.py`).

Conventions of the shallow embedding:
* Python/NumPy floats are modelled by exact rationals `ℚ`.  With exact
  rationals no `NaN`/`inf` values arise from the inputs, so NumPy masks of
  the form `~(isnan | isinf)` are the identity and are noted in comments at
  the place where the source applies them; the only sources of non-finite
  floats inside the engine are zero denominators, which are modelled
  explicitly at each division site.
* The transcendental float routines `np.sqrt`, `np.log1p` and the float
  power `x ** y` are kept abstract as a parameter record `FloatOps`; every
  metric definition receives the record and applies it exactly where the
  source calls the routine.  No property of the routines is assumed except
  where a theorem needs `sqrt 0 = 0` (true of IEEE sqrt), stated as an
  explicit hypothesis.
* NumPy arrays are modelled as `List ℚ`; a couple of elementwise pipelines
  (`np.cumprod` / `np.maximum.accumulate` / `np.max` in `get_max_drawdown`)
  are modelled as indexed families `ℕ → ℚ`, which is the same data.
* Dates are modelled as `ℕ` (normalized dates are totally ordered and only
  compared for equality/order by the engine).
-/

/-- Abstract float routines used by the metric formulas: `sqrt` for
`np.sqrt`/`np.std`, `log1p` for `np.log1p`, `rpow` for the float power
`x ** y`. -/
structure FloatOps where
  sqrt : ℚ → ℚ
  log1p : ℚ → ℚ
  rpow : ℚ → ℚ → ℚ

/-- Trivial instantiation of the float routines (used by concrete
witnesses; it satisfies `sqrt 0 = 0`). -/
def zeroOps : FloatOps :=
  { sqrt := fun _ => 0, log1p := fun _ => 0, rpow := fun _ _ => 0 }

/-- Float routines whose `sqrt` only distinguishes zero from nonzero
radicands, the property shared by every genuine square-root routine
(`sqrt x = 0 ↔ x = 0` on nonnegative inputs). -/
def indicatorOps : FloatOps :=
  { sqrt := fun q => if q = 0 then 0 else 1, log1p := fun _ => 0,
    rpow := fun _ _ => 0 }

/-- The `1e-10` epsilon used by every ratio guard in the sources. -/
def epsQ : ℚ := 1 / 10 ^ 10

/-- Risk-free rate constant `Rf = 0.04` (both files). -/
def Rf : ℚ := 4 / 100

/-- `TRADING_DAYS_PER_YEAR = 250` (both files). -/
def tradingDays : ℚ := 250

/-- `np.mean` on exact rationals (`0` on the empty array, where NumPy
would produce `NaN`; every use in the sources is behind a nonemptiness
guard except where noted). -/
def mean (l : List ℚ) : ℚ :=
  if l.length = 0 then 0 else l.sum / l.length

/-- Population variance, `np.var(l, ddof=0)` / the square of
`np.std(l, ddof=0)`. -/
def popVar (l : List ℚ) : ℚ :=
  mean (l.map (fun x => (x - mean l) ^ 2))

/-- Sample variance, `np.var(l, ddof=1)` / the square of
`np.std(l, ddof=1)` (0 below 2 observations, where NumPy would produce
`NaN`; every use in the sources is behind a length guard). -/
def sampleVar (l : List ℚ) : ℚ :=
  if l.length < 2 then 0
  else ((l.map (fun x => (x - mean l) ^ 2)).sum) / ((l.length : ℚ) - 1)

/-- Sample covariance, `np.cov(xs, ys)[0, 1]` with the default
normalization `N - 1`. -/
def sampleCov (xs ys : List ℚ) : ℚ :=
  if xs.length < 2 then 0
  else (((xs.zip ys).map (fun p => (p.1 - mean xs) * (p.2 - mean ys))).sum) /
    ((xs.length : ℚ) - 1)

/-- `np.prod(1 + l)`. -/
def prodOnePlus (l : List ℚ) : ℚ :=
  (l.map (fun r => 1 + r)).prod

/-!
### Return Series Builder

`task4/imrisk.py` lines 167-174 and `task3/risk.py` lines 923-929 (the two
copies are identical):

    equity_prev = initial_capital + daily_pnl['累计收益'].shift(1).fillna(0.0)
    equity_prev = equity_prev.replace(0, np.nan)
    daily_returns = daily_pnl['日盈亏'] / equity_prev
    if np.isnan(daily_returns.iloc[0]):
        daily_returns.iloc[0] = daily_pnl['日盈亏'].iloc[0] / initial_capital
    daily_returns = daily_returns.replace([np.inf, -np.inf], np.nan).fillna(0.0)

A zero `equity_prev[i]` is routed to `NaN` before the division, so the
division itself never produces `inf` from the inputs; the `NaN` at row 0
(which requires `equity_prev[0] = initial_capital = 0`) is patched with
`dailyPnL[0] / initial_capital`, and every remaining `NaN` is filled with
`0`.  The recursion below carries the previous-day equity
`e = initial_capital + cumulativePnL[i-1]` and the "is this row 0" flag.
-/

/-- One pass of the return-series builder: `first` tells whether the current
row is row 0 (the only row whose `NaN` is patched with
`dailyPnL / initial_capital`), `e` is the previous-day equity. -/
def buildReturnsAux (ic : ℚ) : Bool → ℚ → List ℚ → List ℚ
  | _, _, [] => []
  | first, e, p :: rest =>
    (if e = 0 then (if first then p / ic else 0) else p / e) ::
      buildReturnsAux ic false (e + p) rest

/-- The daily return series built from the daily P&L series (both files,
see the block comment above). -/
def build_daily_returns (ic : ℚ) (pnl : List ℚ) : List ℚ :=
  buildReturnsAux ic true ic pnl

/-- `equityPrev[i] = initialCapital + cumulativePnL[i-1]`
(with `cumulativePnL[-1] = 0`). -/
def equityPrev (ic : ℚ) (pnl : List ℚ) (i : ℕ) : ℚ :=
  ic + (pnl.take i).sum

/-- Claim C1's description of the builder: `dailyPnL[i] / equityPrev[i]`,
with the fallback `dailyPnL[i] / initialCapital` at EVERY index whose
`equityPrev` is zero.  (Definition follows the claim's words, for
comparison with `build_daily_returns`.) -/
def specBuildReturnsC1 (ic : ℚ) (pnl : List ℚ) : List ℚ :=
  (List.range pnl.length).map (fun i =>
    if equityPrev ic pnl i = 0 then pnl.getD i 0 / ic
    else pnl.getD i 0 / equityPrev ic pnl i)

lemma buildReturnsAux_getD (ic : ℚ) (pnl : List ℚ) :
    ∀ (e : ℚ) (i : ℕ), i < pnl.length →
      (buildReturnsAux ic false e pnl).getD i 0 =
        if e + (pnl.take i).sum = 0 then 0
        else pnl.getD i 0 / (e + (pnl.take i).sum) := by
  induction pnl with
  | nil => intro e i hi; simp at hi
  | cons p rest ih =>
    intro e i hi
    cases i with
    | zero => simp [buildReturnsAux]
    | succ j =>
      have hj : j < rest.length := by simpa using hi
      have := ih (e + p) j hj
      simpa [buildReturnsAux, List.take_succ_cons, add_assoc] using this

lemma build_daily_returns_eq_aux (ic : ℚ) (pnl : List ℚ) (h : ic ≠ 0) :
    build_daily_returns ic pnl = buildReturnsAux ic false ic pnl := by
  cases pnl with
  | nil => rfl
  | cons p rest => simp [build_daily_returns, buildReturnsAux, h]

lemma prodOnePlus_cons (r : ℚ) (l : List ℚ) :
    prodOnePlus (r :: l) = (1 + r) * prodOnePlus l := by
  simp [prodOnePlus]

lemma buildReturnsAux_cons (ic : ℚ) (first : Bool) (e p : ℚ) (rest : List ℚ) :
    buildReturnsAux ic first e (p :: rest) =
      (if e = 0 then (if first then p / ic else 0) else p / e) ::
        buildReturnsAux ic false (e + p) rest := rfl

lemma prodOnePlus_aux (ic : ℚ) :
    ∀ (pnl : List ℚ) (e : ℚ), e ≠ 0 →
      (∀ i, i < pnl.length → e + (pnl.take i).sum ≠ 0) →
      prodOnePlus (buildReturnsAux ic false e pnl) = (e + pnl.sum) / e := by
  intro pnl
  induction pnl with
  | nil =>
    intro e he _
    simp [buildReturnsAux, prodOnePlus, div_self he]
  | cons p rest ih =>
    intro e he hall
    cases rest with
    | nil =>
      simp only [buildReturnsAux, prodOnePlus, List.map_cons, List.map_nil,
        List.prod_cons, List.prod_nil, List.sum_cons, List.sum_nil, if_neg he]
      field_simp
    | cons q rest' =>
      have hep : e + p ≠ 0 := by
        have := hall 1 (by simp)
        simpa using this
      have hall' : ∀ i, i < (q :: rest').length →
          (e + p) + ((q :: rest').take i).sum ≠ 0 := by
        intro i hi
        have := hall (i + 1) (by simpa using Nat.succ_lt_succ hi)
        simpa [List.take_succ_cons, add_assoc] using this
      have hrec := ih (e + p) hep hall'
      rw [buildReturnsAux_cons, if_neg he, prodOnePlus_cons, hrec]
      have hsum : (p :: q :: rest').sum = p + (q :: rest').sum := by simp
      rw [hsum]
      field_simp
      ring

/-- Claim C1 (amended).  For a positive initial capital the builder
computes `return[i] = dailyPnL[i] / equityPrev[i]`, except that every index
with `equityPrev[i] = 0` yields `0` (the zero denominator is routed through
`NaN` and filled with `0`); the `dailyPnL/initialCapital` fallback exists
only for index 0, where `equityPrev[0] = initialCapital ≠ 0` makes it
unreachable. -/
theorem C1_return_builder (ic : ℚ) (pnl : List ℚ) (hic : 0 < ic) :
    ∀ i, i < pnl.length →
      (build_daily_returns ic pnl).getD i 0 =
        if equityPrev ic pnl i = 0 then 0
        else pnl.getD i 0 / equityPrev ic pnl i := by
  intro i hi
  rw [build_daily_returns_eq_aux ic pnl (ne_of_gt hic)]
  exact buildReturnsAux_getD ic pnl ic i hi

/-- Witness for C1: at `initialCapital = 100`, `dailyPnL = [-100, 50]`, the
equity before day 1 is `0` and the builder yields `0` for that day. -/
theorem C1_return_builder_witness :
    (build_daily_returns 100 [-100, 50]).getD 1 0 =
      if equityPrev 100 [-100, 50] 1 = 0 then 0
      else ([-100, 50] : List ℚ).getD 1 0 / equityPrev 100 [-100, 50] 1 :=
  C1_return_builder 100 [-100, 50] (by norm_num) 1 (by decide)

/-- Counterexample to C1 as stated: at `initialCapital = 100`,
`dailyPnL = [-100, 50]` the builder yields `[-1, 0]`, while the claimed
`dailyPnL[i]/initialCapital` substitution at the zero-equity index 1 would
yield `[-1, 1/2]`. -/
theorem C1_counterexample :
    build_daily_returns 100 [-100, 50] ≠ specBuildReturnsC1 100 [-100, 50] := by
  have h1 : build_daily_returns 100 [-100, 50] = [-1, 0] := by
    norm_num [build_daily_returns, buildReturnsAux]
  have h2 : specBuildReturnsC1 100 [-100, 50] = [-1, 1 / 2] := by
    have hr : List.range 2 = [0, 1] := rfl
    norm_num [specBuildReturnsC1, equityPrev, hr, List.take]
  rw [h1, h2]
  simp

/-- Claim C2 (confirmed).  Round-trip law: when every prior-day equity is
nonzero, `∏(1 + return[i]) - 1` equals
`(finalEquity - initialCapital) / initialCapital` exactly, with
`finalEquity = initialCapital + Σ dailyPnL`. -/
theorem C2_round_trip (ic : ℚ) (pnl : List ℚ) (hic : 0 < ic)
    (hnz : ∀ i, i < pnl.length → equityPrev ic pnl i ≠ 0) :
    prodOnePlus (build_daily_returns ic pnl) - 1 =
      ((ic + pnl.sum) - ic) / ic := by
  have hic' : ic ≠ 0 := ne_of_gt hic
  rw [build_daily_returns_eq_aux ic pnl hic']
  rw [prodOnePlus_aux ic pnl ic hic' (fun i hi => hnz i hi)]
  field_simp

/-- Witness for C2 at the spec's own example: `initialCapital = 1000`,
`dailyPnL = [100, -50, 200]`; the reconstructed total return is
`250/1000 = 1/4`. -/
theorem C2_round_trip_witness :
    prodOnePlus (build_daily_returns 1000 [100, -50, 200]) - 1 =
      ((1000 + ([100, -50, 200] : List ℚ).sum) - 1000) / 1000 :=
  C2_round_trip 1000 [100, -50, 200] (by norm_num)
    (by
      intro i hi
      have h3 : i < 3 := by simpa using hi
      interval_cases i <;> norm_num [equityPrev, List.take])

/-!
### Benchmark Aligner

`task3/risk.py`, `get_benchmark_daily_returns_aligned` (lines 441-500):
compute day-over-day returns of the valid benchmark closes inside the
strategy date range, de-duplicate by date, left-join onto the strategy
dates, then

    if merged['收益率'].isna().all():
        merged['收益率'] = 0.0
    else:
        if pd.isna(merged.loc[0, '收益率']):
            merged.loc[0, '收益率'] = 0.0
        merged['收益率'] = merged['收益率'].ffill().fillna(0.0)

`task4/imrisk.py`, `get_benchmark_data` (lines 98-106): left-join the
(de-duplicated) benchmark return series onto the strategy dates, then

    merged['基准日收益率'] = merged['基准日收益率'].fillna(0.0)

i.e. the task4 variant fills every unmatched date with `0.0` and performs
no forward fill.  A benchmark return that is itself `NaN` (the first
`pct_change` row) joins as `NaN` and is filled with `0` the same as a
missing date, so the association list below carries only the defined
(date, return) pairs.
-/

/-- First-match association-list lookup, the semantics of a pandas left
merge against a date-unique right table. -/
def lookupFirst (b : List (ℕ × ℚ)) (d : ℕ) : Option ℚ :=
  match b with
  | [] => none
  | (d0, r0) :: rest => if d0 = d then some r0 else lookupFirst rest d

namespace Task3

/-- `s.ffill().fillna(0.0)` in one pass: `carry` is the most recent
non-missing value seen so far. -/
def ffill_fillna (carry : Option ℚ) : List (Option ℚ) → List ℚ
  | [] => []
  | none :: rest => carry.getD 0 :: ffill_fillna carry rest
  | some v :: rest => v :: ffill_fillna (some v) rest

/-- The fill block of `get_benchmark_daily_returns_aligned` (lines
493-498): all-missing columns become all zeros; otherwise a missing row 0
is set to `0.0` and the column is forward-filled (the trailing
`fillna(0.0)` is subsumed because row 0 is never missing at that point). -/
def fill_returns (xs : List (Option ℚ)) : List ℚ :=
  if xs.all (fun o => o.isNone) then xs.map (fun _ => 0)
  else
    match xs with
    | [] => []
    | x :: rest => ffill_fillna none (some (x.getD 0) :: rest)

/-- The merge-and-fill step of `get_benchmark_daily_returns_aligned`:
left-join the benchmark return series `b` onto the strategy dates `sd`,
then fill (lines 490-500). -/
def align_returns (sd : List ℕ) (b : List (ℕ × ℚ)) : List ℚ :=
  fill_returns (sd.map (lookupFirst b))

/-- Insertion into a sorted list (used to model `sort_values`; the claims
settled here do not depend on tie order). -/
def insertLe {α : Type} (le : α → α → Bool) (a : α) : List α → List α
  | [] => [a]
  | b :: bs => if le a b then a :: b :: bs else b :: insertLe le a bs

/-- Insertion sort, modelling `DataFrame.sort_values`. -/
def sortLe {α : Type} (le : α → α → Bool) : List α → List α
  | [] => []
  | a :: as => insertLe le a (sortLe le as)

/-- `np.diff(prices) / prices[:-1]` paired with `dates[1:]` (lines
482-483): the day-over-day simple return of consecutive valid closes. -/
def pairReturns : List (ℕ × ℚ) → List (ℕ × ℚ)
  | (_, p0) :: (d1, p1) :: rest =>
    (d1, (p1 - p0) / p0) :: pairReturns ((d1, p1) :: rest)
  | _ => []

/-- `drop_duplicates(subset=['日期'])`, keeping the first occurrence. -/
def dedupeByDate (seen : List ℕ) : List (ℕ × ℚ) → List (ℕ × ℚ)
  | [] => []
  | (d, r) :: rest =>
    if seen.contains d then dedupeByDate seen rest
    else (d, r) :: dedupeByDate (d :: seen) rest

/-- `get_benchmark_daily_returns_aligned` (lines 441-500) after the
external fetch: `bench` is the fetched (date, close) rows, a `none` close
modelling an unparseable price (`to_numeric(..., errors='coerce')`).
Restrict to the strategy date range, sort by date, drop invalid closes,
require at least 2 valid closes (else `None`), build day-over-day returns,
de-duplicate and sort by date, and align onto the strategy dates. -/
def get_benchmark_daily_returns_aligned (sd : List ℕ)
    (bench : List (ℕ × Option ℚ)) : Option (List ℚ) :=
  match sd.min?, sd.max? with
  | some lo, some hi =>
    let filtered := bench.filter (fun p => decide (lo ≤ p.1) && decide (p.1 ≤ hi))
    let sorted := sortLe (fun a b => decide (a.1 ≤ b.1)) filtered
    let valid := sorted.filterMap (fun p => p.2.map (fun v => (p.1, v)))
    if valid.length < 2 then none
    else
      let rets := pairReturns valid
      let dedup := sortLe (fun a b => decide (a.1 ≤ b.1)) (dedupeByDate [] rets)
      some (align_returns sd dedup)
  | _, _ => none

end Task3

namespace Task4

/-- The merge-and-fill step of `get_benchmark_data` (lines 98-106):
left-join the benchmark return series onto the strategy dates and fill
every missing value with `0.0` (no forward fill). -/
def align_benchmark_returns (sd : List ℕ) (b : List (ℕ × ℚ)) : List ℚ :=
  sd.map (fun d => (lookupFirst b d).getD 0)

end Task4

/-- Claim C3's description of the fill, in one pass: a matched date keeps
its benchmark return, an unmatched date receives the most recent preceding
known benchmark return, and `0` when no preceding known value exists
(in particular the first date).  (Definition follows the claim's words,
for comparison with `Task3.fill_returns` / `Task4.align_benchmark_returns`.) -/
def specForwardFillC3 (last : Option ℚ) : List (Option ℚ) → List ℚ
  | [] => []
  | none :: rest => last.getD 0 :: specForwardFillC3 last rest
  | some v :: rest => v :: specForwardFillC3 (some v) rest

/-- Claim C3's aligner: left-join then the claimed forward fill. -/
def specAlignC3 (sd : List ℕ) (b : List (ℕ × ℚ)) : List ℚ :=
  specForwardFillC3 none (sd.map (lookupFirst b))

lemma specForwardFillC3_all_none :
    ∀ xs : List (Option ℚ), xs.all (fun o => o.isNone) = true →
      specForwardFillC3 none xs = xs.map (fun _ => 0) := by
  intro xs
  induction xs with
  | nil => intro _; rfl
  | cons x rest ih =>
    intro h
    rcases x with _ | v
    · simpa [specForwardFillC3] using ih (by simpa using h)
    · simp at h

lemma ffill_fillna_eq_spec (ys : List (Option ℚ)) :
    ∀ c, Task3.ffill_fillna c ys = specForwardFillC3 c ys := by
  induction ys with
  | nil => intro c; rfl
  | cons y rest ih =>
    intro c
    rcases y with _ | v
    · simp [Task3.ffill_fillna, specForwardFillC3, ih]
    · simp [Task3.ffill_fillna, specForwardFillC3, ih]

lemma ffill_fillna_some_zero (ys : List (Option ℚ)) :
    Task3.ffill_fillna (some 0) ys = Task3.ffill_fillna none ys := by
  induction ys with
  | nil => rfl
  | cons y rest ih =>
    rcases y with _ | v
    · simp [Task3.ffill_fillna, ih]
    · simp [Task3.ffill_fillna]

lemma fill_returns_eq_spec (xs : List (Option ℚ)) :
    Task3.fill_returns xs = specForwardFillC3 none xs := by
  by_cases hall : xs.all (fun o => o.isNone) = true
  · rw [Task3.fill_returns.eq_def, if_pos hall, specForwardFillC3_all_none xs hall]
  · rw [Task3.fill_returns.eq_def, if_neg hall]
    cases xs with
    | nil => rfl
    | cons x rest =>
      rcases x with _ | v
      · show Task3.ffill_fillna none (some 0 :: rest) = _
        rw [show Task3.ffill_fillna none (some 0 :: rest) =
            (0 : ℚ) :: Task3.ffill_fillna (some 0) rest from rfl]
        rw [ffill_fillna_some_zero, ffill_fillna_eq_spec]
        rfl
      · show Task3.ffill_fillna none (some v :: rest) = _
        rw [show Task3.ffill_fillna none (some v :: rest) =
            v :: Task3.ffill_fillna (some v) rest from rfl]
        rw [ffill_fillna_eq_spec]
        rfl

lemma ffill_fillna_all_some :
    ∀ (ys : List (Option ℚ)) (c : Option ℚ), (∀ o ∈ ys, o.isSome) →
      Task3.ffill_fillna c ys = ys.map (fun o => o.getD 0) := by
  intro ys
  induction ys with
  | nil => intro c _; rfl
  | cons y rest ih =>
    intro c h
    rcases y with _ | v
    · exact absurd (h none (by simp)) (by simp)
    · simp [Task3.ffill_fillna, ih (some v) (fun o ho => h o (by simp [ho]))]

lemma fill_returns_all_some (xs : List (Option ℚ)) (h : ∀ o ∈ xs, o.isSome) :
    Task3.fill_returns xs = xs.map (fun o => o.getD 0) := by
  cases xs with
  | nil => rfl
  | cons x rest =>
    rcases x with _ | v
    · exact absurd (h none (by simp)) (by simp)
    · have hne : ((some v :: rest).all (fun o => o.isNone)) = false := by simp
      rw [Task3.fill_returns, hne]
      simp only [Bool.false_eq_true, if_false, Option.getD_some]
      rw [show Task3.ffill_fillna none (some v :: rest) =
          v :: Task3.ffill_fillna (some v) rest from rfl]
      rw [ffill_fillna_all_some rest (some v) (fun o ho => h o (by simp [ho]))]
      rfl

lemma lookupFirst_map_self :
    ∀ b : List (ℕ × ℚ), (b.map Prod.fst).Nodup →
      (b.map Prod.fst).map (fun d => (lookupFirst b d).getD 0) = b.map Prod.snd := by
  intro b
  induction b with
  | nil => intro _; rfl
  | cons p rest ih =>
    intro hnd
    obtain ⟨d, r⟩ := p
    have hd : d ∉ rest.map Prod.fst := (List.nodup_cons.mp hnd).1
    have hrest := ih (List.nodup_cons.mp hnd).2
    simp only [List.map_cons, lookupFirst, if_pos rfl, Option.getD_some]
    congr 1
    rw [← hrest]
    apply List.map_congr_left
    intro d' hd'
    have hne : d ≠ d' := fun h => hd (h ▸ hd')
    simp [lookupFirst, hne]

lemma lookupFirst_isSome_of_mem {b : List (ℕ × ℚ)} {d : ℕ}
    (h : d ∈ b.map Prod.fst) : (lookupFirst b d).isSome := by
  induction b with
  | nil => simp at h
  | cons p rest ih =>
    obtain ⟨d0, r0⟩ := p
    by_cases hd : d0 = d
    · simp [lookupFirst, hd]
    · have : d ∈ rest.map Prod.fst := by
        rcases List.mem_cons.mp h with h1 | h1
        · exact absurd h1.symm hd
        · exact h1
      simp [lookupFirst, hd, ih this]

/-- Claim C3 (amended).  The task3 aligner behaves exactly as the claim
describes: unmatched dates receive the most recent preceding matched
benchmark return and `0` when none exists (in particular the first date),
and an exactly-matching benchmark passes through unchanged.  The task4
aligner satisfies the identity property but fills every unmatched date
with `0` instead of forward-filling. -/
theorem C3_aligner (sd : List ℕ) (b : List (ℕ × ℚ)) :
    Task3.align_returns sd b = specAlignC3 sd b ∧
    ((b.map Prod.fst).Nodup → sd = b.map Prod.fst →
      Task3.align_returns sd b = b.map Prod.snd ∧
      Task4.align_benchmark_returns sd b = b.map Prod.snd) := by
  constructor
  · exact fill_returns_eq_spec (sd.map (lookupFirst b))
  · intro hnd hsd
    subst hsd
    constructor
    · rw [Task3.align_returns,
        fill_returns_all_some ((b.map Prod.fst).map (lookupFirst b))
          (by
            intro o ho
            obtain ⟨d, hd, rfl⟩ := List.mem_map.mp ho
            exact lookupFirst_isSome_of_mem hd),
        List.map_map]
      exact lookupFirst_map_self b hnd
    · rw [Task4.align_benchmark_returns]
      exact lookupFirst_map_self b hnd

/-- Witness for C3 at an exactly-matching benchmark with two dates. -/
theorem C3_aligner_witness :
    Task3.align_returns [1, 2] [(1, 1 / 20), (2, 3 / 100)] =
      ([(1, (1 : ℚ) / 20), (2, 3 / 100)]).map Prod.snd ∧
    Task4.align_benchmark_returns [1, 2] [(1, 1 / 20), (2, 3 / 100)] =
      ([(1, (1 : ℚ) / 20), (2, 3 / 100)]).map Prod.snd :=
  (C3_aligner [1, 2] [(1, 1 / 20), (2, 3 / 100)]).2 (by decide) rfl

/-- Counterexample to C3 as stated: over strategy dates `[1, 2, 3]` with a
single matched benchmark return on date 1, the task4 aligner (cited source
`get_benchmark_data`) yields `[1/20, 0, 0]` instead of the claimed
forward-filled `[1/20, 1/20, 1/20]`. -/
theorem C3_counterexample :
    Task4.align_benchmark_returns [1, 2, 3] [(1, 1 / 20)] = [1 / 20, 0, 0] ∧
    specAlignC3 [1, 2, 3] [(1, 1 / 20)] = [1 / 20, 1 / 20, 1 / 20] ∧
    ([(1 : ℚ) / 20, 0, 0] : List ℚ) ≠ [1 / 20, 1 / 20, 1 / 20] := by
  refine ⟨rfl, rfl, by norm_num⟩

lemma ffill_fillna_length (ys : List (Option ℚ)) :
    ∀ c, (Task3.ffill_fillna c ys).length = ys.length := by
  induction ys with
  | nil => intro c; rfl
  | cons y rest ih =>
    intro c
    rcases y with _ | v <;> simp [Task3.ffill_fillna, ih]

lemma fill_returns_length (xs : List (Option ℚ)) :
    (Task3.fill_returns xs).length = xs.length := by
  rw [Task3.fill_returns.eq_def]
  by_cases hall : xs.all (fun o => o.isNone) = true
  · simp [hall]
  · rw [if_neg hall]
    cases xs with
    | nil => rfl
    | cons x rest =>
      show (Task3.ffill_fillna none (some (x.getD 0) :: rest)).length = _
      rw [show Task3.ffill_fillna none (some (x.getD 0) :: rest) =
          x.getD 0 :: Task3.ffill_fillna (some (x.getD 0)) rest from rfl]
      simp [ffill_fillna_length]

lemma align_returns_length (sd : List ℕ) (b : List (ℕ × ℚ)) :
    (Task3.align_returns sd b).length = sd.length := by
  rw [Task3.align_returns, fill_returns_length, List.length_map]

/-- Claim C10 (confirmed).  Whenever the task3 aligner returns a non-null
series it has exactly one entry per strategy date; the task4 aligner's
output always has one entry per strategy date. -/
theorem C10_aligner_length (sd : List ℕ) :
    (∀ (bench : List (ℕ × Option ℚ)) (out : List ℚ),
      Task3.get_benchmark_daily_returns_aligned sd bench = some out →
        out.length = sd.length) ∧
    (∀ b : List (ℕ × ℚ), (Task4.align_benchmark_returns sd b).length = sd.length) := by
  constructor
  · intro bench out h
    rw [Task3.get_benchmark_daily_returns_aligned.eq_def] at h
    rcases hlo : sd.min? with _ | lo <;> rcases hhi : sd.max? with _ | hi <;>
      simp only [hlo, hhi] at h
    · cases h
    · cases h
    · cases h
    · by_cases hlen :
        ((Task3.sortLe (fun a b => decide (a.1 ≤ b.1))
          (bench.filter (fun p => decide (lo ≤ p.1) && decide (p.1 ≤ hi)))).filterMap
            (fun p => p.2.map (fun v => (p.1, v)))).length < 2
      · rw [if_pos hlen] at h; cases h
      · rw [if_neg hlen] at h
        have := Option.some.inj h
        rw [← this, align_returns_length]
  · intro b
    simp [Task4.align_benchmark_returns]

/-- Witness for C10 at a concrete two-date input producing a non-null
aligned series. -/
theorem C10_aligner_length_witness :
    ([0, (11 - 10) / 10] : List ℚ).length = ([5, 6] : List ℕ).length :=
  (C10_aligner_length [5, 6]).1 [(5, some 10), (6, some 11)] [0, (11 - 10) / 10]
    rfl

/-!
### Max Drawdown

`task4/imrisk.py`, `get_max_drawdown` (lines 343-360):

    net_value = np.cumprod(1 + Dp)
    running_max = np.maximum.accumulate(net_value)
    drawdown = (running_max - net_value) / running_max
    return np.max(drawdown) * 100

The arrays are modelled as indexed families: `nav` is `net_value`,
`runMax` is `running_max`, and `np.max` over the array is `foldMaxF` over
the indices `0 .. n-1`.

`task3/risk.py`, `get_max_drawdown` (lines 109-119) is a different
formula (absolute drawdown of `cumprod(1+r) - 1`, reported as a negative
number via `np.min`); it is modelled list-wise further below with the rest
of the task3 engine.
-/

/-- `np.cumprod(1 + dp)` as an indexed family: the net value after day `i`. -/
def nav (dp : List ℚ) (i : ℕ) : ℚ :=
  ((dp.take (i + 1)).map (fun r => 1 + r)).prod

/-- `np.maximum.accumulate` of `nav`. -/
def runMax (dp : List ℚ) : ℕ → ℚ
  | 0 => nav dp 0
  | j + 1 => max (runMax dp j) (nav dp (j + 1))

/-- `np.max` of an indexed family over indices `0 .. n`. -/
def foldMaxF (f : ℕ → ℚ) : ℕ → ℚ
  | 0 => f 0
  | j + 1 => max (foldMaxF f j) (f (j + 1))

namespace Task4

/-- `get_max_drawdown` (task4 `imrisk.py` lines 343-360), in percent and
positive sign. -/
def get_max_drawdown (dp : List ℚ) : ℚ :=
  if dp.length = 0 then 0
  else 100 * foldMaxF
    (fun j => (runMax dp j - nav dp j) / runMax dp j) (dp.length - 1)

end Task4

/-- Claim C4's strict-pair drawdown values: the list of
`100 * (NAV[i] - NAV[j]) / NAV[i]` over all pairs `i < j`.  (Definition
follows the claim's words, for comparison with `Task4.get_max_drawdown`.) -/
def ddPairs (dp : List ℚ) : List ℚ :=
  ((List.range dp.length).map (fun i =>
    ((List.range dp.length).filter (fun j => decide (i < j))).map (fun j =>
      100 * ((nav dp i - nav dp j) / nav dp i)))).flatten

/-- Maximum over `i ≤ k` of `(NAV[i] - NAV[j]) / NAV[i]` for a fixed `j`. -/
def bestOver (dp : List ℚ) (j : ℕ) : ℕ → ℚ
  | 0 => (nav dp 0 - nav dp j) / nav dp 0
  | k + 1 => max (bestOver dp j k) ((nav dp (k + 1) - nav dp j) / nav dp (k + 1))

/-- Claim C4 amended to pairs `i ≤ j`: the maximum over pairs `i ≤ j` of
`(NAV[i] - NAV[j]) / NAV[i]`, in percent (the diagonal contributes `0`, so
this is the positive part of the strict-pair maximum). -/
def specMddLeC4 (dp : List ℚ) : ℚ :=
  if dp.length = 0 then 0
  else 100 * foldMaxF (fun j => bestOver dp j j) (dp.length - 1)

lemma nav_pos {dp : List ℚ} (h : ∀ r ∈ dp, 0 < 1 + r) (i : ℕ) :
    0 < nav dp i := by
  apply List.prod_pos
  intro x hx
  obtain ⟨r, hr, rfl⟩ := List.mem_map.mp hx
  exact h r (List.take_subset _ _ hr)

lemma runMax_pos {dp : List ℚ} (h : ∀ r ∈ dp, 0 < 1 + r) (j : ℕ) :
    0 < runMax dp j := by
  induction j with
  | zero => exact nav_pos h 0
  | succ k ih => exact lt_max_of_lt_left ih

lemma max_div_ratio {a b v : ℚ} (ha : 0 < a) (hb : 0 < b) (hv : 0 < v) :
    max ((a - v) / a) ((b - v) / b) = (max a b - v) / max a b := by
  rcases le_total a b with h | h
  · rw [max_eq_right h, max_eq_right (by rw [div_le_div_iff₀ ha hb]; nlinarith)]
  · rw [max_eq_left h, max_eq_left (by rw [div_le_div_iff₀ hb ha]; nlinarith)]

lemma bestOver_eq {dp : List ℚ} (h : ∀ r ∈ dp, 0 < 1 + r) (j : ℕ) :
    ∀ k, bestOver dp j k = (runMax dp k - nav dp j) / runMax dp k := by
  intro k
  induction k with
  | zero => rfl
  | succ m ih =>
    rw [bestOver, ih]
    rw [show runMax dp (m + 1) = max (runMax dp m) (nav dp (m + 1)) from rfl]
    exact max_div_ratio (runMax_pos h m) (nav_pos h (m + 1)) (nav_pos h j)

lemma foldMaxF_congr {f g : ℕ → ℚ} :
    ∀ n, (∀ x, x ≤ n → f x = g x) → foldMaxF f n = foldMaxF g n := by
  intro n
  induction n with
  | zero => intro h; simpa [foldMaxF] using h 0 le_rfl
  | succ m ih =>
    intro h
    simp only [foldMaxF]
    rw [ih (fun x hx => h x (le_trans hx (Nat.le_succ m))), h (m + 1) le_rfl]

lemma foldMaxF_zero {f : ℕ → ℚ} :
    ∀ n, (∀ x, x ≤ n → f x = 0) → foldMaxF f n = 0 := by
  intro n
  induction n with
  | zero => intro h; simpa [foldMaxF] using h 0 le_rfl
  | succ m ih =>
    intro h
    simp only [foldMaxF]
    rw [ih (fun x hx => h x (le_trans hx (Nat.le_succ m))), h (m + 1) le_rfl,
      max_self]

lemma runMax_eq_nav {dp : List ℚ}
    (hm : ∀ i, i + 1 < dp.length → nav dp i ≤ nav dp (i + 1)) :
    ∀ j, j < dp.length → runMax dp j = nav dp j := by
  intro j
  induction j with
  | zero => intro _; rfl
  | succ m ih =>
    intro hlt
    rw [show runMax dp (m + 1) = max (runMax dp m) (nav dp (m + 1)) from rfl,
      ih (Nat.lt_of_succ_lt hlt), max_eq_right (hm m hlt)]

/-- Claim C4 (amended).  When every `1 + return` is positive, the task4
Max Drawdown equals the maximum over pairs `i ≤ j` of
`(NAV[i] - NAV[j]) / NAV[i]` (in percent, a nonnegative quantity: the
positive part of the strict-pair maximum); and it is `0` whenever the NAV
curve is monotonically non-decreasing. -/
theorem C4_max_drawdown (dp : List ℚ) :
    ((∀ r ∈ dp, 0 < 1 + r) → Task4.get_max_drawdown dp = specMddLeC4 dp) ∧
    ((∀ i, i + 1 < dp.length → nav dp i ≤ nav dp (i + 1)) →
      Task4.get_max_drawdown dp = 0) := by
  constructor
  · intro hpos
    simp only [Task4.get_max_drawdown, specMddLeC4]
    by_cases h0 : dp.length = 0
    · rw [if_pos h0, if_pos h0]
    · rw [if_neg h0, if_neg h0]
      congr 1
      apply foldMaxF_congr
      intro x _
      exact (bestOver_eq hpos x x).symm
  · intro hm
    simp only [Task4.get_max_drawdown]
    by_cases h0 : dp.length = 0
    · rw [if_pos h0]
    · rw [if_neg h0]
      rw [foldMaxF_zero (dp.length - 1) ?hz, mul_zero]
      case hz =>
        intro x hx
        have hxlt : x < dp.length := by omega
        rw [runMax_eq_nav hm x hxlt, sub_self, zero_div]

/-- Witness for C4 at `Dp = [1/10, 1/10]` (positive returns, monotone NAV). -/
theorem C4_max_drawdown_witness :
    Task4.get_max_drawdown [1 / 10, 1 / 10] = specMddLeC4 [1 / 10, 1 / 10] ∧
    Task4.get_max_drawdown [1 / 10, 1 / 10] = 0 :=
  ⟨(C4_max_drawdown [1 / 10, 1 / 10]).1
    (by intro r hr; simp at hr; rw [hr]; norm_num),
   (C4_max_drawdown [1 / 10, 1 / 10]).2
    (by
      intro i hi
      have hi2 : i = 0 := by simp at hi; omega
      subst hi2
      show nav [1 / 10, 1 / 10] 0 ≤ nav [1 / 10, 1 / 10] 1
      norm_num [nav])⟩

/-- Counterexample to C4 as stated: for `Dp = [1/10, 1/10]` the code
returns `0`, while the only strict pair `i < j` has drawdown value
`-10` percent — the strict-pair maximum is `-10 ≠ 0` (and its absolute
value `10 ≠ 0` as well). -/
theorem C4_counterexample :
    Task4.get_max_drawdown [1 / 10, 1 / 10] = 0 ∧
    ddPairs [1 / 10, 1 / 10] = [-10] ∧ ((-10 : ℚ) ≠ 0) := by
  have ha : nav [1 / 10, 1 / 10] 0 = 11 / 10 := by norm_num [nav]
  have hb : nav [1 / 10, 1 / 10] 1 = 121 / 100 := by norm_num [nav]
  refine ⟨?_, ?_, by norm_num⟩
  · have e1 : Task4.get_max_drawdown [1 / 10, 1 / 10] =
        100 * max
          ((runMax [1 / 10, 1 / 10] 0 - nav [1 / 10, 1 / 10] 0) /
            runMax [1 / 10, 1 / 10] 0)
          ((runMax [1 / 10, 1 / 10] 1 - nav [1 / 10, 1 / 10] 1) /
            runMax [1 / 10, 1 / 10] 1) := rfl
    have hr0 : runMax [1 / 10, 1 / 10] 0 = 11 / 10 := ha
    have hr1 : runMax [1 / 10, 1 / 10] 1 = 121 / 100 := by
      rw [show runMax [1 / 10, 1 / 10] 1 =
          max (runMax [1 / 10, 1 / 10] 0) (nav [1 / 10, 1 / 10] 1) from rfl,
        hr0, hb, max_eq_right (by norm_num)]
    rw [e1, hr0, hr1, ha, hb]
    norm_num
  · have hrg : List.range 2 = [0, 1] := rfl
    simp only [ddPairs, List.length_cons, List.length_nil]
    rw [show (0 : ℕ) + 1 + 1 = 2 from rfl, hrg]
    simp only [List.map_cons, List.map_nil, List.filter, List.flatten]
    norm_num [ha, hb]

/-!
### List-wise NumPy helpers shared by the metric formulas
-/

/-- Running cumulative product of `1 + r`, i.e. `np.cumprod(1 + l)`. -/
def cumprodAux (acc : ℚ) : List ℚ → List ℚ
  | [] => []
  | r :: rest => (acc * (1 + r)) :: cumprodAux (acc * (1 + r)) rest

/-- `np.cumprod(1 + l)`. -/
def navSeq (l : List ℚ) : List ℚ := cumprodAux 1 l

/-- Tail of `np.maximum.accumulate` with running maximum `m`. -/
def accMaxAux (m : ℚ) : List ℚ → List ℚ
  | [] => []
  | x :: xs => max m x :: accMaxAux (max m x) xs

/-- `np.maximum.accumulate`. -/
def accMax : List ℚ → List ℚ
  | [] => []
  | x :: xs => x :: accMaxAux x xs

/-- `np.max` of a list (0 on the empty list; every use is guarded). -/
def maxOfList : List ℚ → ℚ
  | [] => 0
  | x :: xs => xs.foldl max x

/-- `np.min` of a list (0 on the empty list; every use is guarded). -/
def minOfList : List ℚ → ℚ
  | [] => 0
  | x :: xs => xs.foldl min x

/-- `np.diff(l, prepend=0)`. -/
def diffPrepend0 (l : List ℚ) : List ℚ :=
  List.zipWith (fun a b => a - b) l (0 :: l)

/-!
### Metric formulas, task3 `risk.py` (lines 19-227)

The NumPy masks `~(isnan | isinf)` applied by these functions are the
identity on exact rationals and are noted where the source applies them.
-/

namespace Task3

/-- `get_total_returns` (lines 19-23). -/
def get_total_returns (Pend Pstart : ℚ) : ℚ :=
  if Pstart = 0 then 0 else (Pend - Pstart) / Pstart * 100

/-- `get_total_annualized_returns` (lines 26-30); the float power is
`ops.rpow`. -/
def get_total_annualized_returns (ops : FloatOps) (P : ℚ) (n : ℕ) : ℚ :=
  if n = 0 then 0 else (ops.rpow (1 + P) (tradingDays / n) - 1) * 100

/-- `get_beta` (lines 33-48): sample covariance (`np.cov` default
`N - 1`) over POPULATION variance (`np.var(..., ddof=0)`); the NaN/inf
mask (lines 40-43) is the identity here. -/
def get_beta (Dp : List ℚ) (Dm : Option (List ℚ)) : ℚ :=
  match Dm with
  | none => 0
  | some dm =>
    let n := min Dp.length dm.length
    let dpc := Dp.take n
    let dmc := dm.take n
    if dpc.length < 2 then 0
    else
      let cov := sampleCov dpc dmc
      let varDm := popVar dmc
      if varDm > epsQ then cov / varDm else 0

/-- `get_alpha` (lines 51-56). -/
def get_alpha (Rp : ℚ) (Rm : Option ℚ) (βp : ℚ) : ℚ :=
  match Rm with
  | none => 0
  | some rm => (Rp - (Rf + βp * (rm - Rf))) * 100

/-- `get_sharpe` (lines 59-63); the `σp is None` branch is unreachable in
the engine's calls. -/
def get_sharpe (Rp σp : ℚ) : ℚ :=
  if σp = 0 ∨ σp < epsQ then 0 else (Rp - Rf) / σp

/-- `get_sortino` (lines 66-70). -/
def get_sortino (Rp σpd : ℚ) : ℚ :=
  if σpd = 0 ∨ σpd < epsQ then 0 else (Rp - Rf) / σpd

/-- `get_information_ratio` (lines 73-82): `Rp`/`Rm` in percent,
tracking error `np.std(excess, ddof=0) * sqrt(250) * 100`. -/
def get_information_ratio (ops : FloatOps) (Rp : ℚ) (Rm : Option ℚ)
    (Dp : List ℚ) (Dm : Option (List ℚ)) : ℚ :=
  match Dm, Rm with
  | none, _ => 0
  | _, none => 0
  | some dm, some rm =>
    if Dp.length < 2 ∨ dm.length < 2 then 0
    else
      let n := min Dp.length dm.length
      let excess := List.zipWith (fun a b => a - b) (Dp.take n) (dm.take n)
      let σt := ops.sqrt (popVar excess) * ops.sqrt tradingDays * 100
      if σt > epsQ then (Rp - rm) / σt else 0

/-- `get_algorithm_volatility` (lines 85-93): sample standard deviation,
annualized, in percent; the NaN/inf mask is the identity here. -/
def get_algorithm_volatility (ops : FloatOps) (Dp : List ℚ) : ℚ :=
  if Dp.length < 2 then 0
  else ops.sqrt (sampleVar Dp) * ops.sqrt tradingDays * 100

/-- `get_benchmark_volatility` (lines 96-106). -/
def get_benchmark_volatility (ops : FloatOps) (Dm : Option (List ℚ)) : ℚ :=
  match Dm with
  | none => 0
  | some dm =>
    if dm.length < 2 then 0
    else ops.sqrt (sampleVar dm) * ops.sqrt tradingDays * 100

/-- `get_max_drawdown` (lines 109-119): ABSOLUTE drawdown of
`cumprod(1+r) - 1` from its running maximum, reported as the most negative
value times 100 (a number `≤ 0`); the NaN/inf mask is the identity here. -/
def get_max_drawdown (Dp : List ℚ) : ℚ :=
  if Dp.length = 0 then 0
  else
    let cum := (navSeq Dp).map (fun x => x - 1)
    let dd := List.zipWith (fun c m => c - m) cum (accMax cum)
    minOfList dd * 100

/-- The running-mean accumulation of `get_downside_risk` (lines 135-140):
`Σ_i (r_i - mean(r[0:i]))² · [r_i < mean(r[0:i])]` where the mean is the
cumulative-to-date mean including day `i`. -/
def downside_sum (r : List ℚ) : ℚ :=
  ((List.range r.length).map (fun k =>
    let m := mean (r.take (k + 1))
    if r.getD k 0 < m then (r.getD k 0 - m) ^ 2 else 0)).sum

/-- `get_downside_risk` (lines 122-142): running (cumulative-to-date)
mean variant, `sqrt((250/n) * downside_sum) * 100`. -/
def get_downside_risk (ops : FloatOps) (Dp : List ℚ) : ℚ :=
  if Dp.length < 2 then 0
  else ops.sqrt (tradingDays / Dp.length * downside_sum Dp) * 100

/-- `get_win_rate` (lines 144-147). -/
def get_win_rate (win_trades loss_trades : ℕ) : ℚ :=
  if 0 < win_trades + loss_trades then
    (win_trades : ℚ) / (win_trades + loss_trades) * 100
  else 0

/-- `get_daily_win_rate` (lines 150-162); the NaN/inf mask is the
identity here. -/
def get_daily_win_rate (Dp : List ℚ) (Dm : Option (List ℚ)) : ℚ :=
  match Dm with
  | none => 0
  | some dm =>
    let n := min Dp.length dm.length
    let sp := Dp.take n
    let bm := dm.take n
    if sp.length = 0 then 0
    else ((List.zipWith (fun a b => decide (b < a)) sp bm).count true : ℚ) /
      sp.length * 100

/-- `get_profit_loss_ratio` (lines 165-167). -/
def get_profit_loss_ratio (total_profit total_loss : ℚ) : ℚ :=
  if total_loss > 0 then total_profit / total_loss else 0

/-- `get_aei` (lines 170-186); a zero `1 + bm_cum` denominator would be a
non-finite float entering the mean, which cannot arise here on exact
rationals when the benchmark NAV stays nonzero. -/
def get_aei (Dp : List ℚ) (Dm : Option (List ℚ)) : ℚ :=
  match Dm with
  | none => 0
  | some dm =>
    let n := min Dp.length dm.length
    let sp := Dp.take n
    let bm := dm.take n
    if sp.length = 0 then 0
    else
      let spCum := (navSeq sp).map (fun x => x - 1)
      let bmCum := (navSeq bm).map (fun x => x - 1)
      let ei := List.zipWith (fun a b => (1 + a) / (1 + b) - 1) spCum bmCum
      mean (diffPrepend0 ei) * 100

/-- `get_excess_return_max_drawdown` (lines 189-206): absolute drawdown of
the EI curve itself (no `1 + EI` net value), reported as the most negative
value times 100. -/
def get_excess_return_max_drawdown (Dp : List ℚ) (Dm : Option (List ℚ)) : ℚ :=
  match Dm with
  | none => 0
  | some dm =>
    let n := min Dp.length dm.length
    let sp := Dp.take n
    let bm := dm.take n
    if sp.length = 0 then 0
    else
      let spCum := (navSeq sp).map (fun x => x - 1)
      let bmCum := (navSeq bm).map (fun x => x - 1)
      let ei := List.zipWith (fun a b => (1 + a) / (1 + b) - 1) spCum bmCum
      let dd := List.zipWith (fun e m => e - m) ei (accMax ei)
      minOfList dd * 100

/-- `get_excess_return_sharpe` (lines 209-227): tracking statistics of
`sp - bm` with a POPULATION standard deviation and an exact `σpEI == 0`
guard (not the `1e-10` epsilon). -/
def get_excess_return_sharpe (ops : FloatOps) (Dp : List ℚ)
    (Dm : Option (List ℚ)) : ℚ :=
  match Dm with
  | none => 0
  | some dm =>
    let n := min Dp.length dm.length
    let sp := Dp.take n
    let bm := dm.take n
    if sp.length < 2 then 0
    else
      let excess := List.zipWith (fun a b => a - b) sp bm
      let RpEI := mean excess * tradingDays * 100
      let σpEI := ops.sqrt (popVar excess) * ops.sqrt tradingDays * 100
      if σpEI = 0 then 0 else (RpEI - Rf * 100) / σpEI

end Task3

/-!
### Metric formulas, task4 `imrisk.py` (lines 236-518)
-/

namespace Task4

/-- `get_total_returns` (lines 241-245). -/
def get_total_returns (Pend Pstart : ℚ) : ℚ :=
  if Pstart = 0 then 0 else (Pend - Pstart) / Pstart * 100

/-- `get_total_annualized_returns` (lines 248-253). -/
def get_total_annualized_returns (ops : FloatOps) (P : ℚ) (n : ℕ) : ℚ :=
  if n = 0 then 0 else (ops.rpow (1 + P) (tradingDays / n) - 1) * 100

/-- `get_beta` (lines 256-277): sample covariance over SAMPLE variance
(both `ddof=1`); the NaN/inf mask (line 266) is the identity here. -/
def get_beta (Dp : List ℚ) (Dm : Option (List ℚ)) : ℚ :=
  match Dm with
  | none => 0
  | some dm =>
    if Dp.length < 2 ∨ dm.length < 2 then 0
    else
      let n := min Dp.length dm.length
      let dpc := Dp.take n
      let dmc := dm.take n
      if dpc.length < 2 ∨ dmc.length < 2 then 0
      else
        let cov := sampleCov dpc dmc
        let varDm := sampleVar dmc
        if varDm > epsQ then cov / varDm else 0

/-- `get_alpha` (lines 280-284). -/
def get_alpha (Rp : ℚ) (Rm : Option ℚ) (βp : ℚ) : ℚ :=
  match Rm with
  | none => 0
  | some rm => (Rp - (Rf + βp * (rm - Rf))) * 100

/-- `get_sharpe` (lines 287-288). -/
def get_sharpe (Rp σp : ℚ) : ℚ :=
  if σp > epsQ then (Rp - Rf) / σp else 0

/-- `get_sortino` (lines 291-292). -/
def get_sortino (Rp σpd : ℚ) : ℚ :=
  if σpd > epsQ then (Rp - Rf) / σpd else 0

/-- `get_information_ratio` (lines 295-317): `Rp`/`Rm` decimals, sample
standard deviation (`ddof=1`), no `* 100` on the tracking error; the
NaN/inf mask (lines 305-306) is the identity here. -/
def get_information_ratio (ops : FloatOps) (Rp : ℚ) (Rm : Option ℚ)
    (Dp : List ℚ) (Dm : Option (List ℚ)) : ℚ :=
  match Dm, Rm with
  | none, _ => 0
  | _, none => 0
  | some dm, some rm =>
    if Dp.length < 2 ∨ dm.length < 2 then 0
    else
      let n := min Dp.length dm.length
      let dpc := Dp.take n
      let dmc := dm.take n
      if dpc.length < 2 ∨ dmc.length < 2 then 0
      else
        let excess := List.zipWith (fun a b => a - b) dpc dmc
        let σt := ops.sqrt (sampleVar excess) * ops.sqrt tradingDays
        if σt > epsQ then (Rp - rm) / σt else 0

/-- `get_algorithm_volatility` (lines 321-325): no NaN filtering in this
variant, only the length guard. -/
def get_algorithm_volatility (ops : FloatOps) (Dp : List ℚ) : ℚ :=
  if Dp.length < 2 then 0
  else ops.sqrt (sampleVar Dp) * ops.sqrt tradingDays * 100

/-- `get_benchmark_volatility` (lines 329-339): excludes every zero entry
(`Dm[Dm != 0]`, the "first trading day" convention) before the sample
standard deviation. -/
def get_benchmark_volatility (ops : FloatOps) (Dm : Option (List ℚ)) : ℚ :=
  match Dm with
  | none => 0
  | some dm =>
    if dm.length < 2 then 0
    else
      let valid := dm.filter (fun x => decide (x ≠ 0))
      if valid.length < 2 then 0
      else ops.sqrt (sampleVar valid) * ops.sqrt tradingDays * 100

/-- `get_downside_risk` (lines 364-406): population standard deviation of
the returns strictly below the OVERALL mean, annualized, percent. -/
def get_downside_risk (ops : FloatOps) (Dp : List ℚ) : ℚ :=
  if Dp.length < 2 then 0
  else
    let meanReturn := mean Dp
    let downside := Dp.filter (fun r => decide (r < meanReturn))
    if downside.length < 2 then 0
    else ops.sqrt (popVar downside) * ops.sqrt tradingDays * 100

/-- `get_win_rate` (lines 409-411). -/
def get_win_rate (win_trades loss_trades : ℕ) : ℚ :=
  if 0 < win_trades + loss_trades then
    (win_trades : ℚ) / (win_trades + loss_trades) * 100
  else 0

/-- `get_daily_win_rate` (lines 414-421). -/
def get_daily_win_rate (Dp : List ℚ) (Dm : Option (List ℚ)) : ℚ :=
  match Dm with
  | none => 0
  | some dm =>
    if Dp.length = 0 ∨ dm.length = 0 then 0
    else
      let n := min Dp.length dm.length
      if 0 < n then
        ((List.zipWith (fun a b => decide (b < a)) (Dp.take n) (dm.take n)).count
            true : ℚ) / n * 100
      else 0

/-- `get_profit_loss_ratio` (lines 424-426). -/
def get_profit_loss_ratio (total_profit total_loss : ℚ) : ℚ :=
  if total_loss > 0 then total_profit / total_loss else 0

/-- `get_aei` (lines 429-441). -/
def get_aei (Dp : List ℚ) (Dm : Option (List ℚ)) : ℚ :=
  match Dm with
  | none => 0
  | some dm =>
    if Dp.length = 0 ∨ dm.length = 0 then 0
    else
      let n := min Dp.length dm.length
      let spCum := (navSeq (Dp.take n)).map (fun x => x - 1)
      let bmCum := (navSeq (dm.take n)).map (fun x => x - 1)
      let ei := List.zipWith (fun a b => (1 + a) / (1 + b) - 1) spCum bmCum
      mean (diffPrepend0 ei) * 100

/-- `get_excess_return_max_drawdown` (lines 444-471): relative drawdown of
the `1 + EI` net-value curve, reported positive. -/
def get_excess_return_max_drawdown (Dp : List ℚ) (Dm : Option (List ℚ)) : ℚ :=
  match Dm with
  | none => 0
  | some dm =>
    if Dp.length = 0 ∨ dm.length = 0 then 0
    else
      let n := min Dp.length dm.length
      let spCum := navSeq (Dp.take n)
      let bmCum := navSeq (dm.take n)
      let ei := List.zipWith (fun a b => a / b - 1) spCum bmCum
      let eiNet := ei.map (fun e => 1 + e)
      let dd := List.zipWith (fun m v => (m - v) / m) (accMax eiNet) eiNet
      (if dd.length > 0 then maxOfList dd else 0) * 100

/-- `get_excess_return_sharpe` (lines 474-518): per-day EI returns
`(1 + Dp) / (1 + Dm) - 1`; the second NaN/inf filter (line 504) removes
exactly the pairs with `1 + Dm = 0` (the only non-finite source on exact
rationals), modelled by the `filterMap`; the `n_clean > 0` guard of line
513 is subsumed by the `n_clean < 2` check. -/
def get_excess_return_sharpe (ops : FloatOps) (Dp : List ℚ)
    (Dm : Option (List ℚ)) : ℚ :=
  match Dm with
  | none => 0
  | some dm =>
    if Dp.length < 2 ∨ dm.length < 2 then 0
    else
      let n := min Dp.length dm.length
      let pairs := (Dp.take n).zip (dm.take n)
      if pairs.length < 2 then 0
      else
        let eiDaily := pairs.filterMap (fun p =>
          if 1 + p.2 = 0 then none else some ((1 + p.1) / (1 + p.2) - 1))
        if eiDaily.length < 2 then 0
        else
          let eiTotal := prodOnePlus eiDaily - 1
          let RpEI := ops.rpow (1 + eiTotal) (tradingDays / eiDaily.length) - 1
          let σpEI := ops.sqrt (sampleVar eiDaily) * ops.sqrt tradingDays
          if σpEI > epsQ then (RpEI - Rf) / σpEI else 0

end Task4

/-!
### Metrics engine, task4 `imrisk.py` (`calculate_all_metrics`, lines 521-571)

`load_and_process_data` hands the engine the strategy-side numbers and the
result of `get_benchmark_data`, which returns either all three benchmark
fields or `None` for all three; the benchmark side is therefore one
`Option BenchData`.
-/

namespace Task4

/-- Strategy-side fields of the `data` dict consumed by
`calculate_all_metrics`. -/
structure StratData where
  Rp : ℚ
  totalReturn : ℚ
  P : ℚ
  n : ℕ
  Pstart : ℚ
  Pend : ℚ
  Dp : List ℚ
  win_trades : ℕ
  loss_trades : ℕ
  total_profit : ℚ
  total_loss : ℚ

/-- Benchmark-side fields returned by `get_benchmark_data` on success. -/
structure BenchData where
  Dm : List ℚ
  totalReturn : ℚ
  annualizedReturn : ℚ

/-- The metrics dict built by `calculate_all_metrics` (closed field set). -/
structure MetricsIm where
  total_returns : ℚ
  total_annualized_returns : ℚ
  alpha : ℚ
  beta : ℚ
  sharpe_ratio : ℚ
  sortino_ratio : ℚ
  information_ratio : ℚ
  strategy_volatility : ℚ
  benchmark_volatility : ℚ
  max_drawdown : ℚ
  downside_risk : ℚ
  win_rate : ℚ
  daily_win_rate : ℚ
  profit_loss_ratio : ℚ
  aei : ℚ
  excess_max_drawdown : ℚ
  excess_sharpe_ratio : ℚ
  excess_return : ℚ
  win_trades : ℕ
  loss_trades : ℕ

/-- `calculate_all_metrics` (lines 521-571). -/
def calculate_all_metrics (ops : FloatOps) (d : StratData)
    (b : Option BenchData) : MetricsIm :=
  let Rp := d.Rp
  let Rm : Option ℚ := b.map (fun x => x.annualizedReturn)
  let Dp := d.Dp
  let Dm : Option (List ℚ) := b.map (fun x => x.Dm)
  let σp := get_algorithm_volatility ops Dp / 100
  let σm := get_benchmark_volatility ops Dm / 100
  let σpd := get_downside_risk ops Dp / 100
  let βp := get_beta Dp Dm
  let excessReturn : ℚ :=
    match b with
    | none => 0
    | some bb =>
      if |1 + bb.totalReturn| > epsQ then
        ((1 + d.totalReturn) / (1 + bb.totalReturn) - 1) * 100
      else (d.totalReturn - bb.totalReturn) * 100
  { total_returns := get_total_returns d.Pend d.Pstart
    total_annualized_returns := get_total_annualized_returns ops d.P d.n
    alpha := get_alpha Rp Rm βp
    beta := βp
    sharpe_ratio := get_sharpe Rp σp
    sortino_ratio := get_sortino Rp σpd
    information_ratio := get_information_ratio ops Rp Rm Dp Dm
    strategy_volatility := get_algorithm_volatility ops Dp
    benchmark_volatility := get_benchmark_volatility ops Dm
    max_drawdown := get_max_drawdown Dp
    downside_risk := get_downside_risk ops Dp
    win_rate := get_win_rate d.win_trades d.loss_trades
    daily_win_rate := get_daily_win_rate Dp Dm
    profit_loss_ratio := get_profit_loss_ratio d.total_profit d.total_loss
    aei := get_aei Dp Dm
    excess_max_drawdown := get_excess_return_max_drawdown Dp Dm
    excess_sharpe_ratio := get_excess_return_sharpe ops Dp Dm
    excess_return := excessReturn
    win_trades := d.win_trades
    loss_trades := d.loss_trades }

end Task4

/-!
### Metrics engine, task3 `risk.py` (`calculate_risk_metrics`, lines 279-437)
-/

namespace Task3

/-- One row of the raw trade DataFrame as consumed by the win-rate block of
`calculate_risk_metrics`: whether `交易类型` contains `'平'`, and the
`平仓盈亏` value. -/
structure TradeRow where
  is_close : Bool
  close_pnl : ℚ

/-- `calculate_risk_metrics` (lines 279-437).  `dailyPnlCum` is the
`累计收益` column of `daily_pnl`, `tradeDf` the optional raw trade rows
(the column-presence checks of line 351 always hold on this model).  The
NaN/inf cleaning of `Dp` (lines 296-298) and `Dm` (lines 310-312) is the
identity on exact rationals, so only the emptiness tests remain of it.
The result is the metrics dict as a key-value list; the early
`return {}` of line 300 is the empty list. -/
def calculate_risk_metrics (ops : FloatOps) (dailyReturns : List ℚ)
    (totalReturns : ℚ) (initialCapital : ℚ) (dailyPnlCum : List ℚ)
    (benchmarkReturns : Option (List ℚ)) (tradeDf : Option (List TradeRow)) :
    List (String × ℚ) :=
  let Dp := dailyReturns
  if Dp.length = 0 then []
  else
    let Pstart := initialCapital
    let Pend := if 0 < dailyPnlCum.length then Pstart + dailyPnlCum.getLastD 0
      else Pstart
    let P := if 0 < Pstart then (Pend - Pstart) / Pstart else 0
    let n := dailyPnlCum.length
    let Dm : Option (List ℚ) :=
      match benchmarkReturns with
      | none => none
      | some l => if l.length = 0 then none else some l
    let Rm : Option ℚ :=
      match Dm with
      | none => none
      | some dm => some (get_total_annualized_returns ops
          (prodOnePlus dm - 1) dm.length)
    let σpPct := get_algorithm_volatility ops Dp
    let σmPct := get_benchmark_volatility ops Dm
    let σpdPct := get_downside_risk ops Dp
    let σp := if 0 < σpPct then σpPct / 100 else 0
    let σpd := if 0 < σpdPct then σpdPct / 100 else 0
    let RpPct := get_total_annualized_returns ops P n
    let Rp := RpPct / 100
    let RmDec : Option ℚ := Rm.map (fun r => r / 100)
    let βp := get_beta Dp Dm
    let alpha :=
      match RmDec with
      | none => 0
      | some _ => get_alpha Rp RmDec βp
    let sharpe := if σp > epsQ then get_sharpe Rp σp else 0
    let sortino := if σpd > epsQ then get_sortino Rp σpd else 0
    let infoRatio :=
      match Rm with
      | none => 0
      | some _ => get_information_ratio ops RpPct Rm Dp Dm
    let wrpl : ℚ × ℚ :=
      match tradeDf with
      | some rows =>
        let dfClose := rows.filter (fun r => r.is_close)
        if dfClose.length ≠ 0 then
          let winTrades := dfClose.countP (fun r => decide (0 < r.close_pnl))
          let totalTrades := dfClose.length
          let winRate := if 0 < totalTrades then
            (winTrades : ℚ) / totalTrades * 100 else 0
          let totalProfit :=
            ((dfClose.filter (fun r => decide (0 < r.close_pnl))).map
              (fun r => r.close_pnl)).sum
          let totalLoss :=
            |((dfClose.filter (fun r => decide (r.close_pnl < 0))).map
              (fun r => r.close_pnl)).sum|
          (winRate, if 0 < totalLoss then totalProfit / totalLoss else 0)
        else (0, 0)
      | none =>
        let winning := Dp.countP (fun x => decide (0 < x))
        let total := Dp.length
        let winRate := if 0 < total then (winning : ℚ) / total * 100 else 0
        let plRatio :=
          if 0 < winning ∧ 0 < total - winning then
            let avgWin := mean (Dp.filter (fun x => decide (0 < x)))
            let avgLoss := |mean (Dp.filter (fun x => decide (x < 0)))|
            if 0 < avgLoss then avgWin / avgLoss else 0
          else 0
        (winRate, plRatio)
    let excessPair : ℚ × ℚ :=
      match Dm with
      | some l =>
        if 0 < l.length then
          let nl := min Dp.length l.length
          let sp := Dp.take nl
          let bm := l.take nl
          if 0 < sp.length then
            let spTotal := prodOnePlus sp - 1
            let bmTotal := prodOnePlus bm - 1
            if |bmTotal| > epsQ then
              ((spTotal / bmTotal - 1) * 100,
               (ops.log1p spTotal - ops.log1p bmTotal) * 100)
            else (0, 0)
          else (0, 0)
        else (0, 0)
      | none => (0, 0)
    [("Total Returns", get_total_returns Pend Pstart),
     ("Total Annualized Returns", RpPct),
     ("Alpha", alpha),
     ("Beta", βp),
     ("Sharpe", sharpe),
     ("Sortino", sortino),
     ("Information Ratio", infoRatio),
     ("Algorithm Volatility", σpPct),
     ("Benchmark Volatility", σmPct),
     ("Max Drawdown", get_max_drawdown Dp),
     ("Downside Risk", σpdPct),
     ("胜率", wrpl.1),
     ("日胜率", get_daily_win_rate Dp Dm),
     ("盈亏比", wrpl.2),
     ("AEI", get_aei Dp Dm),
     ("超额收益最大回撤", get_excess_return_max_drawdown Dp Dm),
     ("超额收益夏普比率", get_excess_return_sharpe ops Dp Dm),
     ("超额收益", excessPair.1),
     ("对数轴上的超额收益", excessPair.2)]

end Task3

/-- The closed metric-name set of the task3 metrics dict (lines 415-435). -/
def metricNames : List String :=
  ["Total Returns", "Total Annualized Returns", "Alpha", "Beta", "Sharpe",
   "Sortino", "Information Ratio", "Algorithm Volatility",
   "Benchmark Volatility", "Max Drawdown", "Downside Risk", "胜率",
   "日胜率", "盈亏比", "AEI", "超额收益最大回撤", "超额收益夏普比率",
   "超额收益", "对数轴上的超额收益"]

/-- Claim C5 (confirmed).  With the benchmark absent (`Dm == null`) every
benchmark-dependent metric — Beta, Alpha, Information Ratio, Daily Win
Rate and the Excess-* metrics — is `0`, while every benchmark-independent
metric (Total/Annualized Return, Volatility, Sharpe, Max Drawdown, Win
Rate, Profit/Loss Ratio) has the same value as with any benchmark input;
and the task3 engine treats an empty benchmark series exactly as an
absent one. -/
theorem C5_missing_benchmark (ops : FloatOps) (sd : Task4.StratData)
    (bd : Task4.BenchData) :
    (Task4.calculate_all_metrics ops sd none).beta = 0 ∧
    (Task4.calculate_all_metrics ops sd none).alpha = 0 ∧
    (Task4.calculate_all_metrics ops sd none).information_ratio = 0 ∧
    (Task4.calculate_all_metrics ops sd none).daily_win_rate = 0 ∧
    (Task4.calculate_all_metrics ops sd none).aei = 0 ∧
    (Task4.calculate_all_metrics ops sd none).excess_max_drawdown = 0 ∧
    (Task4.calculate_all_metrics ops sd none).excess_sharpe_ratio = 0 ∧
    (Task4.calculate_all_metrics ops sd none).excess_return = 0 ∧
    (Task4.calculate_all_metrics ops sd (some bd)).total_returns =
      (Task4.calculate_all_metrics ops sd none).total_returns ∧
    (Task4.calculate_all_metrics ops sd (some bd)).total_annualized_returns =
      (Task4.calculate_all_metrics ops sd none).total_annualized_returns ∧
    (Task4.calculate_all_metrics ops sd (some bd)).strategy_volatility =
      (Task4.calculate_all_metrics ops sd none).strategy_volatility ∧
    (Task4.calculate_all_metrics ops sd (some bd)).sharpe_ratio =
      (Task4.calculate_all_metrics ops sd none).sharpe_ratio ∧
    (Task4.calculate_all_metrics ops sd (some bd)).max_drawdown =
      (Task4.calculate_all_metrics ops sd none).max_drawdown ∧
    (Task4.calculate_all_metrics ops sd (some bd)).win_rate =
      (Task4.calculate_all_metrics ops sd none).win_rate ∧
    (Task4.calculate_all_metrics ops sd (some bd)).profit_loss_ratio =
      (Task4.calculate_all_metrics ops sd none).profit_loss_ratio ∧
    (∀ (dailyReturns : List ℚ) (totalReturns initialCapital : ℚ)
      (dailyPnlCum : List ℚ) (tradeDf : Option (List Task3.TradeRow)),
      Task3.calculate_risk_metrics ops dailyReturns totalReturns
          initialCapital dailyPnlCum (some []) tradeDf =
        Task3.calculate_risk_metrics ops dailyReturns totalReturns
          initialCapital dailyPnlCum none tradeDf) :=
  ⟨rfl, rfl, rfl, rfl, rfl, rfl, rfl, rfl, rfl, rfl, rfl, rfl, rfl, rfl, rfl,
   fun _ _ _ _ _ => rfl⟩

/-- Claim C6 (amended).  Whenever the cleaned strategy return series is
nonempty, the task3 metrics dict carries exactly the closed metric-name
set, each with a numeric value. -/
theorem C6_fully_populated (ops : FloatOps) (dailyReturns : List ℚ)
    (totalReturns initialCapital : ℚ) (dailyPnlCum : List ℚ)
    (benchmarkReturns : Option (List ℚ)) (tradeDf : Option (List Task3.TradeRow))
    (h : dailyReturns ≠ []) :
    (Task3.calculate_risk_metrics ops dailyReturns totalReturns initialCapital
      dailyPnlCum benchmarkReturns tradeDf).map Prod.fst = metricNames := by
  rw [Task3.calculate_risk_metrics.eq_def]
  rw [if_neg (by simpa using h)]
  rfl

/-- Witness for C6 at a one-day return series. -/
theorem C6_fully_populated_witness :
    (Task3.calculate_risk_metrics zeroOps [0] 0 1000 [0] none none).map
      Prod.fst = metricNames :=
  C6_fully_populated zeroOps [0] 0 1000 [0] none none (by simp)

/-- Counterexample to C6 as stated: on the empty (equivalently,
all-non-finite) strategy return series `calculate_risk_metrics` returns
the empty dict (line 300, `return {}`), which carries none of the metric
keys. -/
theorem C6_counterexample :
    Task3.calculate_risk_metrics zeroOps [] 0 1000 [] none none = [] ∧
    (Task3.calculate_risk_metrics zeroOps [] 0 1000 [] none none).map
      Prod.fst ≠ metricNames := by
  refine ⟨rfl, ?_⟩
  rw [show Task3.calculate_risk_metrics zeroOps [] 0 1000 [] none none =
    [] from rfl]
  simp [metricNames]

/-!
### Perfect-tracking scenario (claim C7) and downside risk (claim C8)
-/

lemma zip_self {α : Type} (l : List α) : l.zip l = l.map (fun x => (x, x)) := by
  induction l with
  | nil => rfl
  | cons x xs ih => simp [ih]

lemma sampleCov_self (l : List ℚ) : sampleCov l l = sampleVar l := by
  have hm : (l.map (fun x => (x, x))).map
      (fun p => (p.1 - mean l) * (p.2 - mean l)) =
      l.map (fun x => (x - mean l) ^ 2) := by
    rw [List.map_map]
    apply List.map_congr_left
    intro x _
    simp only [Function.comp_apply]
    ring
  simp only [sampleCov, sampleVar, zip_self, hm]

lemma zipWith_sub_self (l : List ℚ) :
    List.zipWith (fun a b => a - b) l l = List.replicate l.length 0 := by
  induction l with
  | nil => rfl
  | cons x xs ih => simp [ih, List.replicate_succ]

lemma mean_replicate_zero (n : ℕ) : mean (List.replicate n 0) = 0 := by
  cases n <;> simp [mean]

lemma popVar_replicate_zero (n : ℕ) : popVar (List.replicate n 0) = 0 := by
  simp [popVar, mean_replicate_zero, List.map_replicate]

lemma sampleVar_replicate_zero (n : ℕ) : sampleVar (List.replicate n 0) = 0 := by
  simp [sampleVar, mean_replicate_zero, List.map_replicate]

lemma popVar_small {l : List ℚ} (h : l.length ≤ 1) : popVar l = 0 := by
  cases l with
  | nil => rfl
  | cons x xs =>
    cases xs with
    | nil => norm_num [popVar, mean]
    | cons y ys => simp at h

/-- Claim C7 (amended).  In the perfect-tracking scenario `Dp = Dm` with
at least 2 observations and sample variance above the `1e-10` guard, the
task4 Beta is `1`; with equal strategy and benchmark annualized returns
the CAPM Alpha at `Beta = 1` is `0`; and both Information Ratios are `0`
through the zero-tracking-error fallback (never `Inf`). -/
theorem C7_perfect_tracking (ops : FloatOps) (d : List ℚ) (Rp Rm : ℚ)
    (h0 : ops.sqrt 0 = 0) (h2 : 2 ≤ d.length) (hvar : epsQ < sampleVar d)
    (hR : Rp = Rm) :
    Task4.get_beta d (some d) = 1 ∧
    Task4.get_alpha Rp (some Rm) (Task4.get_beta d (some d)) = 0 ∧
    Task3.get_information_ratio ops Rp (some Rm) d (some d) = 0 ∧
    Task4.get_information_ratio ops Rp (some Rm) d (some d) = 0 := by
  have hvpos : sampleVar d ≠ 0 :=
    ne_of_gt (lt_trans (by norm_num [epsQ]) hvar)
  have hbeta : Task4.get_beta d (some d) = 1 := by
    simp only [Task4.get_beta, Nat.min_self, List.take_length]
    rw [if_neg (by omega), if_neg (by omega), sampleCov_self, if_pos hvar]
    exact div_self hvpos
  refine ⟨hbeta, ?_, ?_, ?_⟩
  · rw [hbeta]
    simp only [Task4.get_alpha, hR]
    ring
  · simp only [Task3.get_information_ratio, Nat.min_self, List.take_length]
    rw [if_neg (by omega), zipWith_sub_self, popVar_replicate_zero, h0,
      zero_mul, zero_mul, if_neg (by norm_num [epsQ])]
  · simp only [Task4.get_information_ratio, Nat.min_self, List.take_length]
    rw [if_neg (by omega), if_neg (by omega), zipWith_sub_self,
      sampleVar_replicate_zero, h0, zero_mul, if_neg (by norm_num [epsQ])]

/-- Witness for C7 at `Dp = Dm = [0, 1/10]`, `Rp = Rm = 7/100`. -/
theorem C7_perfect_tracking_witness :
    Task4.get_beta [0, 1 / 10] (some [0, 1 / 10]) = 1 ∧
    Task4.get_alpha (7 / 100) (some (7 / 100))
      (Task4.get_beta [0, 1 / 10] (some [0, 1 / 10])) = 0 ∧
    Task3.get_information_ratio zeroOps (7 / 100) (some (7 / 100))
      [0, 1 / 10] (some [0, 1 / 10]) = 0 ∧
    Task4.get_information_ratio zeroOps (7 / 100) (some (7 / 100))
      [0, 1 / 10] (some [0, 1 / 10]) = 0 :=
  C7_perfect_tracking zeroOps [0, 1 / 10] (7 / 100) (7 / 100) rfl
    (by norm_num) (by norm_num [sampleVar, mean, epsQ]) rfl

/-- Counterexample to C7 as stated: the task3 `get_beta` divides the
sample covariance by the POPULATION variance, so for `Dp = Dm = [0, 1/10]`
(nonzero variance) it returns `n/(n-1) = 2`, not `1`. -/
theorem C7_counterexample :
    Task3.get_beta [0, 1 / 10] (some [0, 1 / 10]) = 2 ∧ (2 : ℚ) ≠ 1 := by
  constructor
  · have hc : sampleCov [0, 1 / 10] [0, 1 / 10] = 1 / 200 := by
      norm_num [sampleCov, mean, List.zip]
    have hp : popVar [0, 1 / 10] = 1 / 400 := by
      norm_num [popVar, mean]
    simp only [Task3.get_beta, Nat.min_self, List.take_length]
    rw [if_neg (by norm_num), hc, hp, if_pos (by norm_num [epsQ])]
    norm_num
  · norm_num

/-- Claim C8's formula for the downside risk: the population standard
deviation of exactly the returns strictly below the overall mean,
annualized by `sqrt(250)`, in percent.  (Definition follows the claim's
words, for comparison with the two `get_downside_risk` variants.) -/
def specDownsideRiskC8 (ops : FloatOps) (dp : List ℚ) : ℚ :=
  ops.sqrt (popVar (dp.filter (fun r => decide (r < mean dp)))) *
    ops.sqrt tradingDays * 100

/-- Claim C8 (amended).  The task4 downside risk equals the claim's
formula for every series with at least 2 observations and any square-root
routine with `sqrt 0 = 0` (the sub-2-observation downside guard coincides
with the zero variance of a sub-2-element subset). -/
theorem C8_downside_risk (ops : FloatOps) (dp : List ℚ)
    (h0 : ops.sqrt 0 = 0) (h2 : 2 ≤ dp.length) :
    Task4.get_downside_risk ops dp = specDownsideRiskC8 ops dp := by
  simp only [Task4.get_downside_risk, specDownsideRiskC8]
  rw [if_neg (by omega)]
  by_cases hds : (dp.filter (fun r => decide (r < mean dp))).length < 2
  · rw [if_pos hds, popVar_small (by omega), h0, zero_mul, zero_mul]
  · rw [if_neg hds]

/-- Witness for C8 at `Dp = [0, 1, 10, 11]` (two below-mean returns with
nonzero variance), under the zero-dichotomy square root. -/
theorem C8_downside_risk_witness :
    Task4.get_downside_risk indicatorOps [0, 1, 10, 11] =
      specDownsideRiskC8 indicatorOps [0, 1, 10, 11] :=
  C8_downside_risk indicatorOps [0, 1, 10, 11] (by norm_num [indicatorOps])
    (by norm_num)

/-- Counterexample to C8 as stated: the task3 `get_downside_risk` uses the
RUNNING (cumulative-to-date) mean, so on `[1/10, 0, 1/5]` (whose only
strictly-below-overall-mean return is the single value `0`, giving zero
population variance and hence claimed value `0`) it accumulates a positive
radicand and returns a nonzero value for every square root that only
vanishes at zero. -/
theorem C8_counterexample :
    Task3.get_downside_risk indicatorOps [1 / 10, 0, 1 / 5] = 100 ∧
    specDownsideRiskC8 indicatorOps [1 / 10, 0, 1 / 5] = 0 ∧
    (100 : ℚ) ≠ 0 := by
  have hm : mean [1 / 10, 0, 1 / 5] = 1 / 10 := by norm_num [mean]
  have ht1 : ([1 / 10, 0, 1 / 5] : List ℚ).take (0 + 1) = [1 / 10] := rfl
  have ht2 : ([1 / 10, 0, 1 / 5] : List ℚ).take (1 + 1) = [1 / 10, 0] := rfl
  have ht3 : ([1 / 10, 0, 1 / 5] : List ℚ).take (2 + 1) =
    [1 / 10, 0, 1 / 5] := rfl
  have hds : Task3.downside_sum [1 / 10, 0, 1 / 5] = 1 / 400 := by
    have hr : List.range ([1 / 10, 0, 1 / 5] : List ℚ).length = [0, 1, 2] := rfl
    simp only [Task3.downside_sum, hr, List.map_cons, List.map_nil,
      List.sum_cons, List.sum_nil, ht1, ht2, ht3]
    norm_num [mean]
  refine ⟨?_, ?_, by norm_num⟩
  · simp only [Task3.get_downside_risk]
    rw [if_neg (by norm_num), hds]
    norm_num [indicatorOps, tradingDays]
  · simp only [specDownsideRiskC8, hm]
    have hf : ([1 / 10, 0, 1 / 5] : List ℚ).filter
        (fun r => decide (r < 1 / 10)) = [0] := by
      norm_num [List.filter]
    rw [hf, popVar_small (by norm_num)]
    norm_num [indicatorOps]

/-!
### Ledger Normalizer (claim C9)

`task3/risk.py`, `preprocess_data` (lines 250-277), and the equivalent
inline block of `task4/imrisk.py` `load_and_process_data` (lines 147-155):
every field is coerced with `errors='coerce'` (an unparseable value
becomes `NaN`/`NaT`), rows are sorted by the combined datetime, the two
optional P&L fields are `fillna(0)`-defaulted and `净盈亏` is computed.
No row is ever dropped and no dropped-row count exists in the code.  A
parse result is modelled as `Option` (`none` = `NaN`/`NaT`).
-/

namespace Task3

/-- One raw CSV row after the per-field parses of `preprocess_data`:
`none` models a value the coercion turned into `NaN`/`NaT`. -/
structure RawTrade where
  datetime : Option ℕ
  qty : Option ℚ
  price : Option ℚ
  amount : Option ℚ
  close_pnl : Option ℚ
  fee : Option ℚ

/-- One normalized row: the required fields keep their possibly-missing
parse results, the optional P&L fields are defaulted to `0` and `净盈亏`
is computed. -/
structure NormTrade where
  datetime : Option ℕ
  qty : Option ℚ
  price : Option ℚ
  amount : Option ℚ
  close_pnl : ℚ
  fee : ℚ
  net_pnl : ℚ

/-- `sort_values('日期时间')` key order: `NaT` sorts last
(`na_position='last'`). -/
def dtLe (a b : RawTrade) : Bool :=
  match a.datetime, b.datetime with
  | some x, some y => decide (x ≤ y)
  | some _, none => true
  | none, some _ => false
  | none, none => true

/-- The per-row column arithmetic of `preprocess_data` (lines 260-275):
`fillna(0)` on `平仓盈亏`/`手续费` and `净盈亏 = 平仓盈亏 - 手续费`. -/
def normalizeTrade (r : RawTrade) : NormTrade :=
  { datetime := r.datetime, qty := r.qty, price := r.price,
    amount := r.amount, close_pnl := r.close_pnl.getD 0,
    fee := r.fee.getD 0, net_pnl := r.close_pnl.getD 0 - r.fee.getD 0 }

/-- `preprocess_data` (lines 250-277): sort by datetime, then the column
arithmetic.  Nothing is dropped. -/
def preprocess_data (rows : List RawTrade) : List NormTrade :=
  (sortLe dtLe rows).map normalizeTrade

end Task3

/-- Claim C9's description of the normalizer: rows with an unparseable
required field (date, quantity or price) are dropped and their count is
reported.  (Definition follows the claim's words, for comparison with
`Task3.preprocess_data`.) -/
def preprocessSpecC9 (rows : List Task3.RawTrade) :
    List Task3.NormTrade × ℕ :=
  let kept := rows.filter (fun r =>
    r.datetime.isSome && r.qty.isSome && r.price.isSome)
  ((Task3.sortLe Task3.dtLe kept).map Task3.normalizeTrade,
    rows.length - kept.length)

lemma length_insertLe {α : Type} (le : α → α → Bool) (a : α) (l : List α) :
    (Task3.insertLe le a l).length = l.length + 1 := by
  induction l with
  | nil => rfl
  | cons b bs ih =>
    by_cases h : le a b <;> simp [Task3.insertLe, h, ih]

lemma length_sortLe {α : Type} (le : α → α → Bool) (l : List α) :
    (Task3.sortLe le l).length = l.length := by
  induction l with
  | nil => rfl
  | cons a as ih => simp [Task3.sortLe, length_insertLe, ih]

/-- Claim C9 (amended).  The normalizer never drops a row (and reports no
count): the output has exactly one normalized row per input row, with
unparseable required fields retained as missing values and the optional
P&L fields defaulted to `0`. -/
theorem C9_normalizer_keeps_rows (rows : List Task3.RawTrade) :
    (Task3.preprocess_data rows).length = rows.length := by
  rw [Task3.preprocess_data, List.length_map, length_sortLe]

/-- Counterexample to C9 as stated: a single row whose required fields are
all unparseable is kept by the code (output length 1), while the claimed
behaviour drops it (output length 0) and reports the count 1. -/
theorem C9_counterexample :
    (Task3.preprocess_data
      [{ datetime := none, qty := none, price := none, amount := none,
         close_pnl := none, fee := none }]).length = 1 ∧
    (preprocessSpecC9
      [{ datetime := none, qty := none, price := none, amount := none,
         close_pnl := none, fee := none }]).1.length = 0 ∧
    (preprocessSpecC9
      [{ datetime := none, qty := none, price := none, amount := none,
         close_pnl := none, fee := none }]).2 = 1 ∧
    (1 : ℕ) ≠ 0 :=
  ⟨rfl, rfl, rfl, by norm_num⟩
